import Mathlib

/-!
Shallow embedding of `src/index.ts` of the yare-bun-sync repository.

The program is a CLI that builds a source bundle and uploads it to the yare
game service.  All external effects (file system, the `yare-sync` network
library, the `Bun.build` bundler, interactive prompts, environment variables)
are modelled as oracle fields of a `World` record: each field holds the value
the corresponding external call would return in a given run.  Each function of
the source is translated to a pure Lean function from the `World` (and its
arguments) to the list of observable events it performs together with its
result.  Exceptions are modelled with `Except`; `process.exit` and an
unbounded interactive loop whose oracle runs out are terminal `CycleResult`
constructors.
-/

namespace YareBunSync

/-- Session type from `src/index.ts` lines 17-20: `{ user_id, session_id }`. -/
structure Session where
  user_id : String
  session_id : String
deriving Repr, DecidableEq

/-- One upload destination, `{ server, id }` as returned by `sync.getGames`
(`src/index.ts` line 149). -/
structure GameTarget where
  server : String
  id : String
deriving Repr, DecidableEq

/-- JavaScript exceptions relevant to the program, abstracted by origin. -/
inductive JsErr where
  /-- `file.json()` rejecting on unreadable or unparseable contents. -/
  | parseError
  /-- `sync.login` rejecting (bad credentials, network failure). -/
  | loginError
  /-- `TypeError` from `outputs[0].path` when `outputs` is empty. -/
  | typeError
  /-- the bundler `Bun.build` throwing. -/
  | buildError
  /-- `fs.unlinkSync` throwing (e.g. file already absent). -/
  | unlinkError
deriving Repr, DecidableEq

/-- SyncOptions from `src/index.ts` lines 97-103. -/
structure SyncOptions where
  watch : Bool
  watchDir : String
  noMinify : Bool
  file : String
  env : String
deriving Repr, DecidableEq

/-- Observable events of one run: external calls made and status lines shown. -/
inductive Event where
  /-- `Bun.build` invoked with the entrypoint and the minify flag. -/
  | buildCall (entrypoint : String) (minify : Bool)
  /-- `sync.login` invoked with a username and password. -/
  | loginCall (user : String) (pass : String)
  /-- interactive credential prompt (`createPrompt`) shown. -/
  | promptShown
  /-- save-credentials selection prompt (`createSelection`) shown. -/
  | selectionShown
  /-- `fs.appendFileSync` writing credentials to the env file. -/
  | appendEnvFile (user : String) (pass : String)
  /-- `saveSession`, i.e. `Bun.write` of the session file. -/
  | saveSessionCall (s : Session)
  /-- `sync.getGames` invoked with a user id. -/
  | getGamesCall (user_id : String)
  /-- `sync.sendCode` invoked with artifact text, targets and session. -/
  | sendCodeCall (text : String) (targets : List GameTarget) (s : Session)
  /-- `fs.unlinkSync` removing the session file. -/
  | unlinkSessionFile
  /-- a spinner `.fail` status line (text without ANSI colour codes). -/
  | spinnerFail (msg : String)
  /-- a spinner `.succeed` status line. -/
  | spinnerSucceed (msg : String)
  /-- a spinner `.warn` status line. -/
  | spinnerWarn (msg : String)
deriving Repr, DecidableEq

/-- Oracle record: the outcome every external call would produce in one run. -/
structure World where
  /-- `Bun.file(file).exists()` for the entrypoint (line 109). -/
  entryExists : Bool
  /-- `Bun.build` outcome (lines 121-125): throws, or returns the list of
  output artifact paths (`outputs`, possibly empty when the bundler reports
  failure without throwing). -/
  buildResult : Except JsErr (List String)
  /-- state of the session file at `SESSION_FILE_PATH`: `none` if missing,
  otherwise the outcome of reading and JSON-parsing it with `file.json()`
  (line 25): a thrown error for unreadable or unparseable contents, or the
  parsed session. -/
  sessionFile : Option (Except JsErr Session)
  /-- the external verification predicate `sync.verifySession` (line 26). -/
  verifySession : Session → Bool
  /-- `Bun.env.YARE_LOGIN` (`none` when unset). -/
  envLogin : Option String
  /-- `Bun.env.YARE_PASSWORD` (`none` when unset). -/
  envPassword : Option String
  /-- outcome of the single `sync.login` call of the automation path
  (line 88). -/
  envLoginResult : Except JsErr Session
  /-- credentials entered at the i-th interactive prompt (lines 44-51). -/
  promptCreds : Nat → String × String
  /-- outcomes of successive `sync.login` calls in the interactive loop
  (line 60); a finite oracle list, exhausting it models the loop running
  forever. -/
  interactiveResults : List (Except JsErr Session)
  /-- the user's answer to the save-credentials selection (line 75):
  `true` means "Yes". -/
  saveCredsChoice : Bool
  /-- list returned by `sync.getGames` (line 149). -/
  games : List GameTarget
  /-- aggregate boolean returned by `sync.sendCode` (line 156). -/
  sendCodeResult : Bool
  /-- contents of the built artifact, `await distFile.text()` (line 157). -/
  distText : String

/-- Terminal outcome of one `buildAndSync` cycle. -/
inductive CycleResult where
  /-- the function returned normally. -/
  | completed
  /-- `process.exit code` was called. -/
  | exited (code : Nat)
  /-- an exception propagated uncaught out of the cycle. -/
  | threw (e : JsErr)
  /-- the interactive login loop never succeeded (oracle exhausted). -/
  | diverged
deriving Repr, DecidableEq

/-- Result of `login`: a session, an uncaught exception, or divergence of the
interactive retry loop. -/
inductive LoginResult where
  | ok (s : Session)
  | threw (e : JsErr)
  | diverged
deriving Repr, DecidableEq

/-- JavaScript truthiness of an optional environment string: `undefined` and
the empty string are falsy. -/
def truthy (o : Option String) : Bool :=
  match o with
  | none => false
  | some s => s ≠ ""

/-- getExistingSession (`src/index.ts` lines 22-32): if the session file
exists, parse it with `file.json()` (which throws on bad contents — there is
no try/catch in the source) and return the session only when
`sync.verifySession` accepts it; otherwise return `null`. -/
def getExistingSession (w : World) : Except JsErr (Option Session) :=
  match w.sessionFile with
  | none => Except.ok none
  | some contents =>
    match contents with
    | Except.error e => Except.error e
    | Except.ok session =>
      if w.verifySession session then Except.ok (some session)
      else Except.ok none

/-- The `while (!session)` loop of `login` (`src/index.ts` lines 53-65):
prompt for credentials, attempt `sync.login`; a thrown login error is caught,
reported with `spinner.fail`, and the loop repeats.  The recursion consumes
the oracle list of login outcomes; exhausting it (`none` result) models the
loop running forever.  On success it returns the session together with the
username and password of the successful attempt (the loop variables the
source keeps for the save-credentials step). -/
def interactiveLoop (creds : Nat → String × String) :
    Nat → List (Except JsErr Session) → List Event × Option (Session × String × String)
  | _, [] => ([], none)
  | i, r :: rs =>
    let u := (creds i).1
    let p := (creds i).2
    match r with
    | Except.ok s => ([Event.promptShown, Event.loginCall u p], some (s, u, p))
    | Except.error _ =>
      let rest := interactiveLoop creds (i + 1) rs
      (Event.promptShown :: Event.loginCall u p ::
        Event.spinnerFail "Error logging in. Try again." :: rest.1, rest.2)

/-- login (`src/index.ts` lines 34-92).  If either `YARE_LOGIN` or
`YARE_PASSWORD` is falsy: warn, run the interactive retry loop, then show the
save-credentials selection, optionally append the credentials to the env
file, persist the session and return it.  Otherwise: one `sync.login` call
with the environment credentials; on success persist and return the session,
on failure the error propagates uncaught. -/
def login (w : World) (_envFilePath : String) : List Event × LoginResult :=
  if !truthy w.envLogin || !truthy w.envPassword then
    let loop := interactiveLoop w.promptCreds 0 w.interactiveResults
    match loop.2 with
    | none =>
      (Event.spinnerWarn "Couldn't find login credentials." :: loop.1,
        LoginResult.diverged)
    | some (s, u, p) =>
      (Event.spinnerWarn "Couldn't find login credentials." :: loop.1 ++
        [Event.selectionShown] ++
        (if w.saveCredsChoice then [Event.appendEnvFile u p] else []) ++
        [Event.saveSessionCall s],
        LoginResult.ok s)
  else
    match w.envLoginResult with
    | Except.ok s =>
      ([Event.loginCall (w.envLogin.getD "") (w.envPassword.getD ""),
        Event.saveSessionCall s], LoginResult.ok s)
    | Except.error e =>
      ([Event.loginCall (w.envLogin.getD "") (w.envPassword.getD "")],
        LoginResult.threw e)

/-- Failure status line for a missing entrypoint (`src/index.ts`
lines 110-114, colour codes elided). -/
def entryFailMsg (file : String) : String :=
  "Build failed: Could not find entrypoint " ++ file ++ "."

/-- The `try` block of the build stage (`src/index.ts` lines 119-132):
invoke `Bun.build`; any exception — the bundler throwing, or the `TypeError`
from `outputs[0].path` when `outputs` is empty — is caught and turned into a
reported failure (the caller then exits with code 1).  On success the first
artifact path is returned and `Built` reported. -/
def buildStage (opts : SyncOptions) (w : World) :
    Except (List Event) (List Event × String) :=
  match w.buildResult with
  | Except.error _ =>
    Except.error [Event.buildCall opts.file !opts.noMinify,
      Event.spinnerFail "Build failed: Unexpected error"]
  | Except.ok outputs =>
    match outputs with
    | [] =>
      Except.error [Event.buildCall opts.file !opts.noMinify,
        Event.spinnerFail "Build failed: Unexpected error"]
    | p :: _ =>
      Except.ok ([Event.buildCall opts.file !opts.noMinify,
        Event.spinnerSucceed "Built"], p)

/-- Stages 4-5 of the cycle (`src/index.ts` lines 149-169): fetch the games
list; if empty, warn; otherwise call `sync.sendCode` with the artifact text,
all games and the session, and report the aggregate outcome. -/
def syncStage (w : World) (s : Session) : List Event :=
  Event.getGamesCall s.user_id ::
    (if w.games.isEmpty then [Event.spinnerWarn "No current games."]
     else
      Event.sendCodeCall w.distText w.games s ::
        (if w.sendCodeResult then
          [Event.spinnerSucceed ("Uploaded your code to these games: " ++
            String.intercalate ", "
              (w.games.map fun g => g.server ++ "/" ++ g.id))]
         else [Event.spinnerFail "Upload to yare failed."]))

/-- The cycle from the resolved session on (`src/index.ts` lines 145-169):
report the identity, then run the games/upload stage; the cycle then returns
normally. -/
def withSession (w : World) (s : Session) : List Event × CycleResult :=
  (Event.spinnerSucceed ("Logged in as " ++ s.user_id) :: syncStage w s,
    CycleResult.completed)

/-- The session-resolution step of the cycle (`src/index.ts` lines 138-144):
try the cached session; when absent, run `login`.  A parse error thrown by
`getExistingSession`, or a login error of the automation path, propagates
uncaught out of the cycle. -/
def afterBuild (opts : SyncOptions) (w : World) : List Event × CycleResult :=
  match getExistingSession w with
  | Except.error e => ([], CycleResult.threw e)
  | Except.ok (some s) => withSession w s
  | Except.ok none =>
    let l := login w opts.env
    match l.2 with
    | LoginResult.ok s => (l.1 ++ (withSession w s).1, (withSession w s).2)
    | LoginResult.threw e => (l.1, CycleResult.threw e)
    | LoginResult.diverged => (l.1, CycleResult.diverged)

/-- buildAndSync (`src/index.ts` lines 105-170): verify the entrypoint exists
(exit 9 if not), build (exit 1 on any caught build exception), resolve a
session, enumerate games and upload. -/
def buildAndSync (opts : SyncOptions) (w : World) : List Event × CycleResult :=
  if w.entryExists = false then
    ([Event.spinnerFail (entryFailMsg opts.file)], CycleResult.exited 9)
  else
    match buildStage opts w with
    | Except.error evs => (evs, CycleResult.exited 1)
    | Except.ok (evs, _distPath) =>
      let tail := afterBuild opts w
      (evs ++ tail.1, tail.2)

/-- The `logout` command action (`src/index.ts` lines 205-213):
`fs.unlinkSync` on the session file — it throws when the file is absent (the
error propagates uncaught, so `Logged out` is never reported); on success the
file is gone and success is reported. -/
def logoutAction (w : World) : List Event × Except JsErr World :=
  match w.sessionFile with
  | none => ([], Except.error JsErr.unlinkError)
  | some _ =>
    ([Event.unlinkSessionFile, Event.spinnerSucceed "Logged out"],
      Except.ok { w with sessionFile := none })

/-- Recognizer for `sync.login` call events, used to count login attempts. -/
def isLoginCall : Event → Bool
  | Event.loginCall _ _ => true
  | _ => false

/-- Sessions persisted via `saveSession` in an event trace, in order. -/
def savedSessions (evs : List Event) : List Session :=
  evs.filterMap fun e =>
    match e with
    | Event.saveSessionCall s => some s
    | _ => none

/-- The session the cycle resolves (cached, or from `login`), if any. -/
def resolvedSession (w : World) (envFilePath : String) : Option Session :=
  match getExistingSession w with
  | Except.error _ => none
  | Except.ok (some s) => some s
  | Except.ok none =>
    match (login w envFilePath).2 with
    | LoginResult.ok s => some s
    | _ => none

/-! ## Concrete runs used as witnesses -/

/-- Default CLI options (`src/index.ts` lines 177-181). -/
def sampleOpts : SyncOptions :=
  { watch := false, watchDir := "./src", noMinify := false,
    file := "src/index.ts", env := ".env" }

/-- A sample session value. -/
def sampleSession : Session := { user_id := "u1", session_id := "s1" }

/-- A benign world: entrypoint present, build succeeds with one artifact,
no cached session, environment credentials set and accepted, two games,
upload succeeds. -/
def baseWorld : World :=
  { entryExists := true
    buildResult := Except.ok ["dist/index.js"]
    sessionFile := none
    verifySession := fun _ => true
    envLogin := some "user"
    envPassword := some "pw"
    envLoginResult := Except.ok sampleSession
    promptCreds := fun _ => ("user", "pw")
    interactiveResults := [Except.ok sampleSession]
    saveCredsChoice := false
    games := [{ server := "a", id := "1" }, { server := "b", id := "2" }]
    sendCodeResult := true
    distText := "code" }

/-! ## Claims -/

/-- C1: the upload (`sendCode`) is invoked only if the build stage completed
without error: whenever the bundler throws, the cycle reports the failure and
exits with code 1 before any upload; in general a `sendCode` call in the
trace implies the build returned a nonempty outputs list. -/
theorem C1_no_upload_after_failed_build (opts : SyncOptions) (w : World) :
    (∀ e, w.entryExists = true → w.buildResult = Except.error e →
      buildAndSync opts w =
        ([Event.buildCall opts.file !opts.noMinify,
          Event.spinnerFail "Build failed: Unexpected error"],
         CycleResult.exited 1)) ∧
    (∀ t gs s, Event.sendCodeCall t gs s ∈ (buildAndSync opts w).1 →
      ∃ p rest, w.buildResult = Except.ok (p :: rest)) := by
  constructor
  · intro e h1 h2
    simp [buildAndSync, buildStage, h1, h2]
  · intro t gs s hmem
    by_cases h1 : w.entryExists = false
    · simp [buildAndSync, h1] at hmem
    · cases hb : w.buildResult with
      | error e =>
        rw [buildAndSync] at hmem
        simp [buildStage, h1, hb] at hmem
      | ok outputs =>
        cases outputs with
        | nil =>
          rw [buildAndSync] at hmem
          simp [buildStage, h1, hb] at hmem
        | cons p rest => exact ⟨p, rest, rfl⟩

/-- C1 witness: with the bundler throwing, the run exits with code 1. -/
theorem C1_no_upload_after_failed_build_witness :
    buildAndSync sampleOpts
        { baseWorld with buildResult := Except.error JsErr.buildError } =
      ([Event.buildCall "src/index.ts" true,
        Event.spinnerFail "Build failed: Unexpected error"],
       CycleResult.exited 1) :=
  (C1_no_upload_after_failed_build sampleOpts
    { baseWorld with buildResult := Except.error JsErr.buildError }).1
    JsErr.buildError rfl rfl

/-- C2: when the entrypoint file does not exist, the cycle reports the
failure and exits with code 9, performing no build call, no login attempt and
no upload call. -/
theorem C2_entry_missing (opts : SyncOptions) (w : World)
    (h : w.entryExists = false) :
    buildAndSync opts w =
      ([Event.spinnerFail (entryFailMsg opts.file)], CycleResult.exited 9) ∧
    (∀ f m, Event.buildCall f m ∉ (buildAndSync opts w).1) ∧
    (∀ u p, Event.loginCall u p ∉ (buildAndSync opts w).1) ∧
    (∀ t gs s, Event.sendCodeCall t gs s ∉ (buildAndSync opts w).1) := by
  simp [buildAndSync, h]

/-- C2 witness: a concrete world with a missing entrypoint exits with 9. -/
theorem C2_entry_missing_witness :
    buildAndSync sampleOpts { baseWorld with entryExists := false } =
      ([Event.spinnerFail (entryFailMsg "src/index.ts")],
       CycleResult.exited 9) :=
  (C2_entry_missing sampleOpts { baseWorld with entryExists := false } rfl).1

/-- C10: the build stage catches every exception — the bundler throwing, and
the `TypeError` from indexing `outputs[0]` when the bundler reports failure
without throwing and returns an empty outputs list — and turns it into a
reported failure and `process.exit(1)`; no exception escapes the stage. -/
theorem C10_build_exceptions_caught (opts : SyncOptions) (w : World)
    (h1 : w.entryExists = true)
    (h2 : (∃ e, w.buildResult = Except.error e) ∨
      w.buildResult = Except.ok []) :
    buildAndSync opts w =
      ([Event.buildCall opts.file !opts.noMinify,
        Event.spinnerFail "Build failed: Unexpected error"],
       CycleResult.exited 1) ∧
    ∀ e, (buildAndSync opts w).2 ≠ CycleResult.threw e := by
  rcases h2 with ⟨e, h2⟩ | h2 <;>
    simp [buildAndSync, buildStage, h1, h2]

/-- C10 witness: the bundler reporting failure without throwing (empty
outputs list) is caught and the run exits with code 1. -/
theorem C10_build_exceptions_caught_witness :
    buildAndSync sampleOpts { baseWorld with buildResult := Except.ok [] } =
      ([Event.buildCall "src/index.ts" true,
        Event.spinnerFail "Build failed: Unexpected error"],
       CycleResult.exited 1) :=
  (C10_build_exceptions_caught sampleOpts
    { baseWorld with buildResult := Except.ok [] } rfl (Or.inr rfl)).1

/-- A world whose session file exists but holds unparseable contents, so
`file.json()` throws. -/
def corruptSessionWorld : World :=
  { baseWorld with sessionFile := some (Except.error JsErr.parseError) }

/-- C3 counterexample: the claim says `getExistingSession` returns `null`
and does not throw when the session file's contents are unparseable; in the
source `file.json()` is not wrapped in any try/catch, so on a world whose
session file holds unparseable contents the function propagates the parse
error instead of returning `null`. -/
theorem C3_load_counterexample :
    corruptSessionWorld.sessionFile = some (Except.error JsErr.parseError) ∧
    getExistingSession corruptSessionWorld = Except.error JsErr.parseError ∧
    getExistingSession corruptSessionWorld ≠ Except.ok none := by
  refine ⟨rfl, rfl, ?_⟩
  intro h
  exact Except.noConfusion h

/-- C3 amended: `getExistingSession` returns `null` without throwing when the
file is missing or when the stored session fails the external verification
predicate, and never returns a session that fails verification; but when the
file's contents are unreadable or unparseable the parse error propagates
(the function throws). -/
theorem C3_load_amended (w : World) :
    (w.sessionFile = none → getExistingSession w = Except.ok none) ∧
    (∀ s, w.sessionFile = some (Except.ok s) → w.verifySession s = false →
      getExistingSession w = Except.ok none) ∧
    (∀ s, getExistingSession w = Except.ok (some s) →
      w.verifySession s = true) ∧
    (∀ e, w.sessionFile = some (Except.error e) →
      getExistingSession w = Except.error e) := by
  refine ⟨?_, ?_, ?_, ?_⟩
  · intro h; simp [getExistingSession, h]
  · intro s h hv; simp [getExistingSession, h, hv]
  · intro s h
    unfold getExistingSession at h
    cases hsf : w.sessionFile with
    | none => rw [hsf] at h; exact absurd h (by simp)
    | some contents =>
      rw [hsf] at h
      cases contents with
      | error e => exact absurd h (by simp)
      | ok s' =>
        by_cases hv : w.verifySession s'
        · simp [hv] at h
          rw [← h]
          exact hv
        · simp [hv] at h
  · intro e h; simp [getExistingSession, h]

/-- C3 amended witness: missing file yields `null`; a session failing
verification yields `null`; unparseable contents throw. -/
theorem C3_load_amended_witness :
    getExistingSession baseWorld = Except.ok none ∧
    getExistingSession
        { baseWorld with
            sessionFile := some (Except.ok sampleSession)
            verifySession := fun _ => false } = Except.ok none ∧
    getExistingSession corruptSessionWorld =
      Except.error JsErr.parseError :=
  ⟨(C3_load_amended baseWorld).1 rfl,
   (C3_load_amended _).2.1 sampleSession rfl rfl,
   (C3_load_amended corruptSessionWorld).2.2.2 JsErr.parseError rfl⟩

/-- C4: with both environment credentials truthy, `login` makes exactly one
`sync.login` call and shows no interactive prompt; on success it persists the
returned session and returns it, on failure the error propagates with no
retry and nothing persisted. -/
theorem C4_env_credentials_single_login (w : World) (envFile : String)
    (hl : truthy w.envLogin = true) (hp : truthy w.envPassword = true) :
    (login w envFile).1.countP isLoginCall = 1 ∧
    Event.promptShown ∉ (login w envFile).1 ∧
    Event.selectionShown ∉ (login w envFile).1 ∧
    (∀ s, w.envLoginResult = Except.ok s →
      (login w envFile).2 = LoginResult.ok s ∧
      Event.saveSessionCall s ∈ (login w envFile).1) ∧
    (∀ e, w.envLoginResult = Except.error e →
      (login w envFile).2 = LoginResult.threw e ∧
      savedSessions (login w envFile).1 = []) := by
  cases hr : w.envLoginResult with
  | ok s =>
    refine ⟨?_, ?_, ?_, ?_, ?_⟩ <;>
      simp [login, hl, hp, hr, isLoginCall, savedSessions, List.countP_cons,
        List.countP_nil]
  | error e =>
    refine ⟨?_, ?_, ?_, ?_, ?_⟩ <;>
      simp [login, hl, hp, hr, isLoginCall, savedSessions, List.countP_cons,
        List.countP_nil]

/-- C4 witness: with env credentials set and the login call succeeding,
exactly one login call is made and the session is persisted and returned. -/
theorem C4_env_credentials_single_login_witness :
    (login baseWorld ".env").1.countP isLoginCall = 1 ∧
    Event.promptShown ∉ (login baseWorld ".env").1 ∧
    (login baseWorld ".env").2 = LoginResult.ok sampleSession ∧
    Event.saveSessionCall sampleSession ∈ (login baseWorld ".env").1 := by
  have h := C4_env_credentials_single_login baseWorld ".env" rfl rfl
  exact ⟨h.1, h.2.1, (h.2.2.2.1 sampleSession rfl).1,
    (h.2.2.2.1 sampleSession rfl).2⟩

/-- savedSessions of the empty trace. -/
@[simp] theorem savedSessions_nil : savedSessions [] = [] := rfl

/-- savedSessions distributes over trace concatenation. -/
@[simp] theorem savedSessions_append (l₁ l₂ : List Event) :
    savedSessions (l₁ ++ l₂) = savedSessions l₁ ++ savedSessions l₂ :=
  List.filterMap_append l₁ l₂ _

/-- savedSessions of a cons, computed per event constructor. -/
@[simp] theorem savedSessions_cons (e : Event) (l : List Event) :
    savedSessions (e :: l) =
      (match e with
       | Event.saveSessionCall s => [s]
       | _ => []) ++ savedSessions l := by
  cases e <;> simp [savedSessions, List.filterMap_cons]

/-- For an oracle of k failed attempts followed by one success, the
interactive retry loop makes exactly k+1 login calls, succeeds with the final
session, and itself persists nothing. -/
theorem interactiveLoop_replicate (creds : Nat → String × String) (e : JsErr)
    (s : Session) :
    ∀ (k i : Nat),
      ((interactiveLoop creds i
          (List.replicate k (Except.error e) ++ [Except.ok s])).1.countP
            isLoginCall = k + 1) ∧
      (∃ u p, (interactiveLoop creds i
          (List.replicate k (Except.error e) ++ [Except.ok s])).2 =
            some (s, u, p)) ∧
      savedSessions (interactiveLoop creds i
          (List.replicate k (Except.error e) ++ [Except.ok s])).1 = [] := by
  intro k
  induction k with
  | zero =>
    intro i
    refine ⟨?_, ⟨(creds i).1, (creds i).2, ?_⟩, ?_⟩ <;>
      simp [interactiveLoop, isLoginCall, savedSessions, List.countP_cons,
        List.countP_nil]
  | succ m ih =>
    intro i
    obtain ⟨h1, ⟨u, p, h2⟩, h3⟩ := ih (i + 1)
    refine ⟨?_, ⟨u, p, ?_⟩, ?_⟩
    · simp [List.replicate_succ, interactiveLoop, List.countP_cons,
        isLoginCall, h1]
    · simp only [List.replicate_succ, List.cons_append, interactiveLoop]
      exact h2
    · simp [List.replicate_succ, interactiveLoop, h3]

/-- C8: in interactive mode, k failed login attempts followed by one success
yield exactly k+1 `sync.login` calls, only the session of the final,
successful attempt is persisted, and that session is returned; the automation
path also persists its session on success, so the obtained session is
persisted regardless of which path produced it. -/
theorem C8_interactive_retry_persists_last :
    (∀ (w : World) (envFile : String) (k : Nat) (e : JsErr) (s : Session),
      (!truthy w.envLogin || !truthy w.envPassword) = true →
      w.interactiveResults =
        List.replicate k (Except.error e) ++ [Except.ok s] →
      (login w envFile).1.countP isLoginCall = k + 1 ∧
      savedSessions (login w envFile).1 = [s] ∧
      (login w envFile).2 = LoginResult.ok s) ∧
    (∀ (w : World) (envFile : String) (s : Session),
      truthy w.envLogin = true → truthy w.envPassword = true →
      w.envLoginResult = Except.ok s →
      savedSessions (login w envFile).1 = [s]) := by
  constructor
  · intro w envFile k e s hcond hres
    obtain ⟨h1, ⟨u, p, h2⟩, h3⟩ :=
      interactiveLoop_replicate w.promptCreds e s k 0
    rw [← hres] at h1 h2 h3
    rcases hE : interactiveLoop w.promptCreds 0 w.interactiveResults
      with ⟨evs, res⟩
    rw [hE] at h1 h2 h3
    simp only at h1 h2 h3
    subst h2
    by_cases hsc : w.saveCredsChoice <;>
      simp [login, hcond, hE, hsc, List.countP_cons, List.countP_append,
        List.countP_nil, isLoginCall, h1, h3]
  · intro w envFile s hl hp hr
    simp [login, hl, hp, hr]

/-- A world with no env credentials whose interactive login fails twice and
then succeeds. -/
def interactiveWorld : World :=
  { baseWorld with
      envLogin := none
      interactiveResults :=
        [Except.error JsErr.loginError, Except.error JsErr.loginError,
         Except.ok sampleSession] }

/-- C8 witness: two failures then a success give exactly three login calls,
and only the final session is persisted. -/
theorem C8_interactive_retry_persists_last_witness :
    (login interactiveWorld ".env").1.countP isLoginCall = 3 ∧
    savedSessions (login interactiveWorld ".env").1 = [sampleSession] ∧
    (login interactiveWorld ".env").2 = LoginResult.ok sampleSession :=
  C8_interactive_retry_persists_last.1 interactiveWorld ".env" 2
    JsErr.loginError sampleSession rfl rfl

/-- The interactive retry loop never performs an upload call. -/
theorem interactiveLoop_no_sendCode (creds : Nat → String × String) :
    ∀ (rs : List (Except JsErr Session)) (i : Nat) (t : String)
      (gs : List GameTarget) (s : Session),
      Event.sendCodeCall t gs s ∉ (interactiveLoop creds i rs).1 := by
  intro rs
  induction rs with
  | nil => intro i t gs s; simp [interactiveLoop]
  | cons r rs ih =>
    intro i t gs s
    cases r with
    | ok s' => simp [interactiveLoop]
    | error e =>
      simp only [interactiveLoop, List.mem_cons]
      push_neg
      exact ⟨by simp, by simp, by simp, ih (i + 1) t gs s⟩

/-- `login` never performs an upload call. -/
theorem login_no_sendCode (w : World) (envFile : String) (t : String)
    (gs : List GameTarget) (s : Session) :
    Event.sendCodeCall t gs s ∉ (login w envFile).1 := by
  by_cases hcond : (!truthy w.envLogin || !truthy w.envPassword) = true
  · rcases hE : interactiveLoop w.promptCreds 0 w.interactiveResults
      with ⟨evs, res⟩
    have hin :=
      interactiveLoop_no_sendCode w.promptCreds w.interactiveResults 0 t gs s
    rw [hE] at hin
    simp only at hin
    cases res with
    | none => simp [login, hcond, hE, hin]
    | some x =>
      rcases x with ⟨s', u, p⟩
      by_cases hsc : w.saveCredsChoice <;> simp [login, hcond, hE, hsc, hin]
  · rw [Bool.not_eq_true] at hcond
    cases hr : w.envLoginResult with
    | ok s' => simp [login, hcond, hr]
    | error e => simp [login, hcond, hr]

/-- When the entrypoint exists, the build returns a nonempty outputs list and
the cycle resolves a session, the cycle's trace is a prefix containing no
upload call followed by the games/upload stage run with that session, and the
cycle completes normally. -/
theorem buildAndSync_resolved (opts : SyncOptions) (w : World) (s : Session)
    (p : String) (rest : List String)
    (h1 : w.entryExists = true)
    (hb : w.buildResult = Except.ok (p :: rest))
    (hres : resolvedSession w opts.env = some s) :
    ∃ pre, (buildAndSync opts w).1 = pre ++ syncStage w s ∧
      (buildAndSync opts w).2 = CycleResult.completed ∧
      ∀ t gs s', Event.sendCodeCall t gs s' ∉ pre := by
  unfold resolvedSession at hres
  cases hsess : getExistingSession w with
  | error e => rw [hsess] at hres; simp at hres
  | ok o =>
    rw [hsess] at hres
    cases o with
    | some s' =>
      simp only [Option.some.injEq] at hres
      subst hres
      refine ⟨[Event.buildCall opts.file !opts.noMinify,
        Event.spinnerSucceed "Built",
        Event.spinnerSucceed ("Logged in as " ++ s'.user_id)], ?_, ?_, ?_⟩
      · simp [buildAndSync, buildStage, afterBuild, withSession, h1, hb,
          hsess]
      · simp [buildAndSync, buildStage, afterBuild, withSession, h1, hb,
          hsess]
      · intro t gs s''; simp
    | none =>
      cases hl : (login w opts.env).2 with
      | ok s' =>
        rw [hl] at hres
        simp only [Option.some.injEq] at hres
        subst hres
        refine ⟨([Event.buildCall opts.file !opts.noMinify,
          Event.spinnerSucceed "Built"] ++ (login w opts.env).1) ++
          [Event.spinnerSucceed ("Logged in as " ++ s'.user_id)], ?_, ?_, ?_⟩
        · simp [buildAndSync, buildStage, afterBuild, withSession, h1, hb,
            hsess, hl]
        · simp [buildAndSync, buildStage, afterBuild, withSession, h1, hb,
            hsess, hl]
        · intro t gs s''
          have hn := login_no_sendCode w opts.env t gs s''
          simp [hn]
      | threw e => rw [hl] at hres; simp at hres
      | diverged => rw [hl] at hres; simp at hres

/-- C5: in a cycle that reaches the upload stage, `sendCode` returning
`false` is reported as a failure, and `sendCode` returning `true` is reported
as a success whose message enumerates, via a map over the list returned by
`getGames`, every target exactly once in that order. -/
theorem C5_upload_report (opts : SyncOptions) (w : World) (s : Session)
    (p : String) (rest : List String)
    (h1 : w.entryExists = true)
    (hb : w.buildResult = Except.ok (p :: rest))
    (hres : resolvedSession w opts.env = some s)
    (hg : w.games ≠ []) :
    (w.sendCodeResult = false →
      Event.spinnerFail "Upload to yare failed." ∈ (buildAndSync opts w).1) ∧
    (w.sendCodeResult = true →
      Event.sendCodeCall w.distText w.games s ∈ (buildAndSync opts w).1 ∧
      Event.spinnerSucceed ("Uploaded your code to these games: " ++
        String.intercalate ", "
          (w.games.map fun g => g.server ++ "/" ++ g.id)) ∈
        (buildAndSync opts w).1) := by
  obtain ⟨pre, hevs, hr, hpre⟩ :=
    buildAndSync_resolved opts w s p rest h1 hb hres
  rw [hevs]
  constructor
  · intro hsr
    simp [syncStage, List.isEmpty_iff, hg, hsr]
  · intro hsr
    constructor <;> simp [syncStage, List.isEmpty_iff, hg, hsr]

/-- C6: when the build succeeds and a cached session exists on disk and
passes external verification, the cycle makes zero login attempts and uses
the cached session for the identity report, the games query and the upload
call. -/
theorem C6_cached_session_reused (opts : SyncOptions) (w : World)
    (s : Session) (p : String) (rest : List String)
    (h1 : w.entryExists = true)
    (hb : w.buildResult = Except.ok (p :: rest))
    (h3 : w.sessionFile = some (Except.ok s))
    (h4 : w.verifySession s = true) :
    (∀ u pw, Event.loginCall u pw ∉ (buildAndSync opts w).1) ∧
    Event.spinnerSucceed ("Logged in as " ++ s.user_id) ∈
      (buildAndSync opts w).1 ∧
    Event.getGamesCall s.user_id ∈ (buildAndSync opts w).1 ∧
    (∀ t gs s', Event.sendCodeCall t gs s' ∈ (buildAndSync opts w).1 →
      s' = s) := by
  have hsess : getExistingSession w = Except.ok (some s) := by
    simp [getExistingSession, h3, h4]
  refine ⟨?_, ?_, ?_, ?_⟩
  · intro u pw
    by_cases hg : w.games.isEmpty <;> by_cases hsr : w.sendCodeResult <;>
      simp [buildAndSync, buildStage, afterBuild, withSession, syncStage,
        h1, hb, hsess, hg, hsr]
  · simp [buildAndSync, buildStage, afterBuild, withSession, syncStage,
      h1, hb, hsess]
  · simp [buildAndSync, buildStage, afterBuild, withSession, syncStage,
      h1, hb, hsess]
  · intro t gs s' hmem
    by_cases hg : w.games.isEmpty
    · simp [buildAndSync, buildStage, afterBuild, withSession, syncStage,
        h1, hb, hsess, hg] at hmem
    · by_cases hsr : w.sendCodeResult <;>
        simp [buildAndSync, buildStage, afterBuild, withSession, syncStage,
          h1, hb, hsess, hg, hsr] at hmem <;>
        exact hmem.2.2

/-- C7: when the cycle resolves a session and `getGames` returns the empty
list, the cycle warns, performs no upload call, and completes normally
without terminating the process. -/
theorem C7_no_games_warns (opts : SyncOptions) (w : World) (s : Session)
    (p : String) (rest : List String)
    (h1 : w.entryExists = true)
    (hb : w.buildResult = Except.ok (p :: rest))
    (hres : resolvedSession w opts.env = some s)
    (hg : w.games = []) :
    Event.spinnerWarn "No current games." ∈ (buildAndSync opts w).1 ∧
    (∀ t gs s', Event.sendCodeCall t gs s' ∉ (buildAndSync opts w).1) ∧
    (buildAndSync opts w).2 = CycleResult.completed := by
  obtain ⟨pre, hevs, hr, hpre⟩ :=
    buildAndSync_resolved opts w s p rest h1 hb hres
  refine ⟨?_, ?_, hr⟩
  · rw [hevs]
    simp [syncStage, hg]
  · intro t gs s'
    rw [hevs]
    have hn := hpre t gs s'
    simp [syncStage, hg, hn]

/-- C9: whenever `logout` succeeds in deleting the persisted session file, a
subsequent `getExistingSession` on the resulting state returns `null`. -/
theorem C9_logout_then_load_absent (w w' : World) (evs : List Event)
    (h : logoutAction w = (evs, Except.ok w')) :
    getExistingSession w' = Except.ok none := by
  unfold logoutAction at h
  cases hsf : w.sessionFile with
  | none =>
    rw [hsf] at h
    exact absurd h (by simp)
  | some c =>
    rw [hsf] at h
    simp only [Prod.mk.injEq, Except.ok.injEq] at h
    rw [← h.2]
    simp [getExistingSession]

/-- A world with a valid cached session on disk. -/
def cachedWorld : World :=
  { baseWorld with sessionFile := some (Except.ok sampleSession) }

/-- A world with a valid cached session and no current games. -/
def emptyGamesWorld : World := { cachedWorld with games := [] }

/-- C5 witness: with two games `a/1` and `b/2` and `sendCode` returning
`true`, the success message enumerates `a/1, b/2`. -/
theorem C5_upload_report_witness :
    Event.sendCodeCall "code" cachedWorld.games sampleSession ∈
      (buildAndSync sampleOpts cachedWorld).1 ∧
    Event.spinnerSucceed "Uploaded your code to these games: a/1, b/2" ∈
      (buildAndSync sampleOpts cachedWorld).1 := by
  have h := (C5_upload_report sampleOpts cachedWorld sampleSession
    "dist/index.js" [] rfl rfl rfl (by decide)).2 rfl
  exact ⟨h.1, h.2⟩

/-- C6 witness: with a valid cached session, the cycle shows the cached
identity and queries games without any login call. -/
theorem C6_cached_session_reused_witness :
    Event.loginCall "user" "pw" ∉ (buildAndSync sampleOpts cachedWorld).1 ∧
    Event.spinnerSucceed "Logged in as u1" ∈
      (buildAndSync sampleOpts cachedWorld).1 ∧
    Event.getGamesCall "u1" ∈ (buildAndSync sampleOpts cachedWorld).1 := by
  have h := C6_cached_session_reused sampleOpts cachedWorld sampleSession
    "dist/index.js" [] rfl rfl rfl rfl
  exact ⟨h.1 "user" "pw", h.2.1, h.2.2.1⟩

/-- C7 witness: with no current games the cycle warns and completes. -/
theorem C7_no_games_warns_witness :
    Event.spinnerWarn "No current games." ∈
      (buildAndSync sampleOpts emptyGamesWorld).1 ∧
    (buildAndSync sampleOpts emptyGamesWorld).2 = CycleResult.completed := by
  have h := C7_no_games_warns sampleOpts emptyGamesWorld sampleSession
    "dist/index.js" [] rfl rfl rfl rfl
  exact ⟨h.1, h.2.2⟩

/-- C9 witness: deleting the cached session file makes a subsequent load
return `null`. -/
theorem C9_logout_then_load_absent_witness :
    getExistingSession { cachedWorld with sessionFile := none } =
      Except.ok none :=
  C9_logout_then_load_absent cachedWorld
    { cachedWorld with sessionFile := none }
    [Event.unlinkSessionFile, Event.spinnerSucceed "Logged out"] rfl

end YareBunSync
